import Mathlib

/-!
Verification of the alpha-profile module of a protoplanetary-disk setup package.

The module derives a turbulence ("alpha") radial profile in two flavours:
a sum-of-Gaussians bump/gap profile (`get_BumpProfile`, `Alpha_Bump`) and a
parametric dead-zone profile (`Alpha_DeadZone`), plus a surface-density
rescaler (`rescale_Sigma_with_Alpha`) and the wiring that inserts the alpha
update step into the simulation's ordered updater list.

Radial arrays of length `N` are embedded as functions `Fin N → ℝ`; the
floating-point arithmetic of the source is embedded as exact real arithmetic.
-/

namespace AlphaProfiles

/-- Gaussian kernel, from `functions_alphaProfiles.py` lines 12-21:
`A * np.exp(-0.5 * ((r - r0)/sigma)**2)`, evaluated pointwise on the grid. -/
noncomputable def Gaussian (r r0 A sigma : ℝ) : ℝ :=
  A * Real.exp (-0.5 * ((r - r0) / sigma) ^ 2)

/-- Piecewise-linear interpolation over a list of `(x, y)` sample points with
increasing `x`, modelling `scipy.interpolate.interp1d` (an external library
dependency of the source, linear kind) evaluated at a single point. -/
noncomputable def interp1d : List (ℝ × ℝ) → ℝ → ℝ
  | [], _ => 0
  | [p], _ => p.2
  | p :: q :: rest, x =>
    if x ≤ q.1 then p.2 + (q.2 - p.2) * (x - p.1) / (q.1 - p.1)
    else interp1d (q :: rest) x

/-- The interpolator `interp1d(sim.grid.r, sim.gas.Hp)` built in
`get_BumpProfile` (line 38), evaluated at radius `x`. -/
noncomputable def Hp_interpolator {N : ℕ} (r Hp : Fin N → ℝ) (x : ℝ) : ℝ :=
  interp1d ((List.finRange N).map fun j => (r j, Hp j)) x

/-- FWHM-to-standard-deviation conversion constant
`2. * np.sqrt(2 * np.log(2))` (line 39). -/
noncomputable def FWHM_factor : ℝ :=
  2 * Real.sqrt (2 * Real.log 2)

/-- The `sim.gas.GaussianBumps` parameter group registered by
`setup_profile_bumps` (lines 40-44): parallel arrays of bump locations,
amplitudes and widths, plus the profile type string (field `Type` in the
source, renamed here because `Type` is reserved in Lean). -/
structure GaussianBumps (k : ℕ) where
  Location : Fin k → ℝ
  Amplitude : Fin k → ℝ
  Width : Fin k → ℝ
  profileType : String

/-- Outcome of a profile-builder call.  `ok` carries the returned array.
`exitProcess` models the source's `print(message)` followed by `exit(code)`
(line 57-58).  `error` models a structured, recoverable configuration
error; the source never produces it, but the constructor is needed to state
claims that distinguish a structured error from process termination. -/
inductive BuildResult (N : ℕ) where
  | ok (profile : Fin N → ℝ)
  | error (message : String)
  | exitProcess (message : String) (code : ℕ)

/-- The accumulation loop of `get_BumpProfile` (lines 38-49): start from
`np.ones_like(sim.grid.r)` and add one Gaussian per bump, whose standard
deviation is `Width * Hp_interpolator(Location) / FWHM_factor`. -/
noncomputable def bumpFactor {N k : ℕ} (r Hp : Fin N → ℝ) (b : GaussianBumps k) :
    Fin N → ℝ :=
  fun j =>
    (List.finRange k).foldl
      (fun acc i =>
        acc + Gaussian (r j) (b.Location i) (b.Amplitude i)
          (b.Width i * Hp_interpolator r Hp (b.Location i) / FWHM_factor))
      1

/-- `get_BumpProfile` (lines 24-58), array-input path: build the factor
array, then return it for `'GAP'`, its reciprocal for `'BUMP'`, and
otherwise print `"PROFILE TYPE NOT DEFINED"` and `exit(0)`. -/
noncomputable def get_BumpProfile {N k : ℕ} (r Hp : Fin N → ℝ)
    (b : GaussianBumps k) : BuildResult N :=
  if b.profileType = "GAP" then .ok (bumpFactor r Hp b)
  else if b.profileType = "BUMP" then .ok fun j => 1 / bumpFactor r Hp b j
  else .exitProcess "PROFILE TYPE NOT DEFINED" 0

/-- `get_BumpProfile`, scalar-input path (lines 45-46): when `Location`,
`Amplitude` and `Width` are plain numbers, a single Gaussian is added
without looping. -/
noncomputable def get_BumpProfile_scalar {N : ℕ} (r Hp : Fin N → ℝ)
    (Location Amplitude Width : ℝ) (profileType : String) : BuildResult N :=
  let sigma := Width * Hp_interpolator r Hp Location / FWHM_factor
  let bump_profile : Fin N → ℝ := fun j => 1 + Gaussian (r j) Location Amplitude sigma
  if profileType = "GAP" then .ok bump_profile
  else if profileType = "BUMP" then .ok fun j => 1 / bump_profile j
  else .exitProcess "PROFILE TYPE NOT DEFINED" 0

/-- `Alpha_Bump` (lines 62-72): `alpha = sim.ini.gas.alpha * get_BumpProfile(sim)`.
If the builder terminates the process, no alpha array is produced. -/
noncomputable def Alpha_Bump {N k : ℕ} (alpha_0 : ℝ) (r Hp : Fin N → ℝ)
    (b : GaussianBumps k) : BuildResult N :=
  match get_BumpProfile r Hp b with
  | .ok p => .ok fun j => alpha_0 * p j
  | .error m => .error m
  | .exitProcess m c => .exitProcess m c

/-- Dead-zone shape at one radius (lines 94-99): with `x = r - outer_radii`,
the x<0 entries get `0.5 * exp(x / transition_width)` and the x≥0 entries get
`1.0 - 0.5 * exp(-x / transition_width)`; together the two assignments cover
every grid point exactly once. -/
noncomputable def deadZoneShape (r_out w ρ : ℝ) : ℝ :=
  if ρ - r_out < 0 then 0.5 * Real.exp ((ρ - r_out) / w)
  else 1.0 - 0.5 * Real.exp (-(ρ - r_out) / w)

/-- `Alpha_DeadZone` (lines 82-104):
`alpha = alpha_dead + (alpha_active - alpha_dead) * alpha_shape`. -/
noncomputable def Alpha_DeadZone {N : ℕ} (alpha_active alpha_dead r_out w : ℝ)
    (r : Fin N → ℝ) : Fin N → ℝ :=
  fun j => alpha_dead + (alpha_active - alpha_dead) * deadZoneShape r_out w (r j)

/-- `get_DiskMass` (`setup_alphaProfiles.py` lines 142-143):
`np.sum(sim.grid.A * sim.gas.Sigma)`. -/
noncomputable def get_DiskMass {N : ℕ} (area Sigma : Fin N → ℝ) : ℝ :=
  ∑ j, area j * Sigma j

/-- `rescale_Sigma_with_Alpha` (lines 145-171): multiply the gas and dust
surface densities by `alpha_0 / alpha`, and when `correct_mass` is true
divide both by the mass factor `scaled_disk_mass / original_disk_mass`.
Returns the final `(gas Sigma, dust Sigma)` pair. -/
noncomputable def rescale_Sigma_with_Alpha {N m : ℕ} (area SigmaGas : Fin N → ℝ)
    (SigmaDust : Fin N → Fin m → ℝ) (alpha : Fin N → ℝ) (alpha_0 : ℝ)
    (correct_mass : Bool) : (Fin N → ℝ) × (Fin N → Fin m → ℝ) :=
  let original_disk_mass := get_DiskMass area SigmaGas
  let gas1 : Fin N → ℝ := fun j => SigmaGas j * (alpha_0 / alpha j)
  let dust1 : Fin N → Fin m → ℝ := fun j s => SigmaDust j s * (alpha_0 / alpha j)
  let scaled_disk_mass := get_DiskMass area gas1
  if correct_mass then
    (fun j => gas1 j / (scaled_disk_mass / original_disk_mass),
     fun j s => dust1 j s / (scaled_disk_mass / original_disk_mass))
  else (gas1, dust1)

/-- The bump factor array as the spec states it (spec section 4.2): one plus
the sum over bumps of `Amplitude_i * exp(-0.5*((r-Location_i)/sigma_i)^2)`
with `sigma_i = Width_i * Hp_interp(Location_i) / (2*sqrt(2*ln 2))`.  Written
from the spec's words, to be compared with the source-derived builder. -/
noncomputable def bumpFactor_spec {N k : ℕ} (r Hp : Fin N → ℝ)
    (Location Amplitude Width : Fin k → ℝ) : Fin N → ℝ :=
  fun j => 1 + ∑ i, Amplitude i *
    Real.exp (-0.5 * ((r j - Location i) /
      (Width i * Hp_interpolator r Hp (Location i) /
        (2 * Real.sqrt (2 * Real.log 2)))) ^ 2)

/-- The gas updater list installed by `setup_profile_bumps` (line 52). -/
def gas_updater_bumps : List String :=
  ["gamma", "mu", "T", "cs", "Hp", "GaussianBumps", "alpha", "nu", "rho", "n",
   "mfp", "P", "eta", "S"]

/-- The gas updater list installed by `setup_profile_deadzone` (line 117). -/
def gas_updater_deadzone : List String :=
  ["gamma", "mu", "T", "cs", "Hp", "DeadZone", "alpha", "nu", "rho", "n",
   "mfp", "P", "eta", "S"]

/-- `setup_profile_deadzone` (lines 78-134), restricted to its effect on the
alpha field: the parameters are registered without any validation and
`sim.gas.alpha.update()` immediately evaluates `Alpha_DeadZone` on them;
no branch of the function can produce an error or terminate early. -/
noncomputable def setup_profile_deadzone {N : ℕ}
    (alpha_active alpha_dead r_dz_outer width_dz_outer : ℝ)
    (r : Fin N → ℝ) : BuildResult N :=
  .ok (Alpha_DeadZone alpha_active alpha_dead r_dz_outer width_dz_outer r)

end AlphaProfiles

namespace AlphaProfiles

/-- Folding `acc + g i` over a list starting from `c` adds the mapped sum. -/
theorem foldl_add_map_sum {α : Type} (g : α → ℝ) :
    ∀ (l : List α) (c : ℝ), l.foldl (fun acc i => acc + g i) c = c + (l.map g).sum := by
  intro l
  induction l with
  | nil => intro c; simp
  | cons a t ih => intro c; simp [List.foldl, ih, add_assoc]

/-- The bump factor is one plus the sum of the Gaussians of all bumps. -/
theorem bumpFactor_eq_sum {N k : ℕ} (r Hp : Fin N → ℝ) (b : GaussianBumps k)
    (j : Fin N) :
    bumpFactor r Hp b j =
      1 + ∑ i, Gaussian (r j) (b.Location i) (b.Amplitude i)
        (b.Width i * Hp_interpolator r Hp (b.Location i) / FWHM_factor) := by
  rw [bumpFactor, foldl_add_map_sum, Fin.sum_univ_def]

/-- C8 counterexample: with amplitude `A = -1` (and `sigma = 1`, `r0 = 0`),
the Gaussian takes the value `-1` at its center but a strictly larger value
at `r = 1`, so the value `A` at `r0` is not a maximum: the claim fails for
negative amplitudes. -/
theorem gaussian_neg_amp_cex :
    Gaussian 0 0 (-1) 1 = -1 ∧ ¬ Gaussian 1 0 (-1) 1 ≤ -1 := by
  constructor
  · simp [Gaussian]
  · rw [Gaussian, not_le]
    have h1 : Real.exp (-0.5 * ((1 - 0 : ℝ) / 1) ^ 2) < 1 := by
      rw [Real.exp_lt_one_iff]; norm_num
    nlinarith [h1]

/-- C8 (amended): for `sigma > 0` the Gaussian kernel computes
`A * exp(-0.5*((r-r0)/sigma)^2)` and is symmetric about `r0`; its value at
`r0` is `A`; and when additionally `A > 0`, it attains its maximum `A`
exactly at `r = r0` (value `≤ A` everywhere, `< A` away from `r0`). -/
theorem gaussian_props (r0 A sigma : ℝ) (hs : 0 < sigma) :
    (∀ r, Gaussian r r0 A sigma = A * Real.exp (-0.5 * ((r - r0) / sigma) ^ 2))
    ∧ (∀ d, Gaussian (r0 + d) r0 A sigma = Gaussian (r0 - d) r0 A sigma)
    ∧ Gaussian r0 r0 A sigma = A
    ∧ (0 < A → ∀ r, Gaussian r r0 A sigma ≤ A)
    ∧ (0 < A → ∀ r, r ≠ r0 → Gaussian r r0 A sigma < A) := by
  refine ⟨fun r => rfl, fun d => ?_, ?_, fun hA r => ?_, fun hA r hr => ?_⟩
  · rw [Gaussian, Gaussian]
    ring_nf
  · simp [Gaussian]
  · rw [Gaussian]
    have hle : Real.exp (-0.5 * ((r - r0) / sigma) ^ 2) ≤ 1 := by
      rw [Real.exp_le_one_iff]
      nlinarith [sq_nonneg ((r - r0) / sigma)]
    nlinarith [hle]
  · rw [Gaussian]
    have hne : (r - r0) / sigma ≠ 0 := by
      exact div_ne_zero (sub_ne_zero.mpr hr) (ne_of_gt hs)
    have hlt : Real.exp (-0.5 * ((r - r0) / sigma) ^ 2) < 1 := by
      rw [Real.exp_lt_one_iff]
      have : 0 < ((r - r0) / sigma) ^ 2 :=
        lt_of_le_of_ne (sq_nonneg _) (Ne.symm (pow_ne_zero 2 hne))
      nlinarith [this]
    nlinarith [hlt]

/-- C8 witness: `gaussian_props` instantiated at `r0 = 0`, `A = 1`,
`sigma = 1`. -/
theorem gaussian_props_w :
    (0 : ℝ) < 1 ∧
    ((∀ r, Gaussian r 0 1 1 = 1 * Real.exp (-0.5 * ((r - 0) / 1) ^ 2))
    ∧ (∀ d, Gaussian (0 + d) 0 1 1 = Gaussian (0 - d) 0 1 1)
    ∧ Gaussian 0 0 1 1 = 1
    ∧ ((0 : ℝ) < 1 → ∀ r, Gaussian r 0 1 1 ≤ 1)
    ∧ ((0 : ℝ) < 1 → ∀ r, r ≠ 0 → Gaussian r 0 1 1 < 1)) :=
  ⟨by norm_num, gaussian_props 0 1 1 (by norm_num)⟩

/-- C1: for every grid `r`, scale-height array `Hp`, bump arrays and base
`alpha_0`, the builder's factor array is
`F j = 1 + Σ_i Amplitude_i * exp(-0.5*((r j - Location_i)/sigma_i)^2)` with
`sigma_i = Width_i * Hp_interp(Location_i) / (2*sqrt(2*ln 2))`, where
`Hp_interp` is piecewise-linear interpolation of `Hp` over `r`; with
`ProfileKind = GAP` the builder returns `F` itself, with `BUMP` its
element-wise reciprocal, and `Alpha_Bump` is the scalar `alpha_0` times the
returned profile, element-wise. -/
theorem bumpProfile_formula {N k : ℕ} (r Hp : Fin N → ℝ)
    (Location Amplitude Width : Fin k → ℝ) (alpha_0 : ℝ) :
    get_BumpProfile r Hp ⟨Location, Amplitude, Width, "GAP"⟩ =
        .ok (bumpFactor_spec r Hp Location Amplitude Width)
    ∧ get_BumpProfile r Hp ⟨Location, Amplitude, Width, "BUMP"⟩ =
        .ok (fun j => 1 / bumpFactor_spec r Hp Location Amplitude Width j)
    ∧ Alpha_Bump alpha_0 r Hp ⟨Location, Amplitude, Width, "GAP"⟩ =
        .ok (fun j => alpha_0 * bumpFactor_spec r Hp Location Amplitude Width j)
    ∧ Alpha_Bump alpha_0 r Hp ⟨Location, Amplitude, Width, "BUMP"⟩ =
        .ok (fun j => alpha_0 *
          (1 / bumpFactor_spec r Hp Location Amplitude Width j)) := by
  set F := bumpFactor_spec r Hp Location Amplitude Width with hFdef
  have hfac : ∀ ty : String,
      bumpFactor r Hp ⟨Location, Amplitude, Width, ty⟩ = F := by
    intro ty
    funext j
    rw [bumpFactor_eq_sum, hFdef]
    rfl
  have h1 : get_BumpProfile r Hp ⟨Location, Amplitude, Width, "GAP"⟩ = .ok F := by
    rw [get_BumpProfile]
    simp [hfac]
  have h2 : get_BumpProfile r Hp ⟨Location, Amplitude, Width, "BUMP"⟩ =
      .ok (fun j => 1 / F j) := by
    rw [get_BumpProfile]
    simp [hfac]
  refine ⟨h1, h2, ?_, ?_⟩
  · unfold Alpha_Bump
    rw [h1]
  · unfold Alpha_Bump
    rw [h2]

/-- C5: for a single bump given as plain numbers, the scalar-input path of
the builder produces exactly the same result as the length-1-array path at
the same values, for every profile type. -/
theorem bump_scalar_eq_array {N : ℕ} (r Hp : Fin N → ℝ) (l a w : ℝ)
    (ty : String) :
    get_BumpProfile_scalar r Hp l a w ty =
      get_BumpProfile r Hp ⟨fun _ : Fin 1 => l, fun _ => a, fun _ => w, ty⟩ := by
  have hbp : ∀ j : Fin N,
      1 + Gaussian (r j) l a (w * Hp_interpolator r Hp l / FWHM_factor) =
        bumpFactor r Hp ⟨fun _ : Fin 1 => l, fun _ => a, fun _ => w, ty⟩ j := by
    intro j
    rw [bumpFactor_eq_sum]
    simp
  simp only [get_BumpProfile_scalar, get_BumpProfile, hbp]

/-- C4 counterexample: at the concrete invalid profile type `"INVALID"` the
builder terminates the process (modelling `print(...)` + `exit(0)`) and does
not return a structured error value. -/
theorem bump_invalidKind_cex :
    get_BumpProfile (fun _ : Fin 1 => 0) (fun _ => 1)
        ⟨fun _ : Fin 1 => 0, fun _ => 0, fun _ => 1, "INVALID"⟩ =
      .exitProcess "PROFILE TYPE NOT DEFINED" 0
    ∧ ∀ msg, get_BumpProfile (fun _ : Fin 1 => 0) (fun _ => 1)
        ⟨fun _ : Fin 1 => 0, fun _ => 0, fun _ => 1, "INVALID"⟩ ≠
      BuildResult.error msg := by
  have h : get_BumpProfile (fun _ : Fin 1 => 0) (fun _ => 1)
      ⟨fun _ : Fin 1 => 0, fun _ => 0, fun _ => 1, "INVALID"⟩ =
        .exitProcess "PROFILE TYPE NOT DEFINED" 0 := by
    rw [get_BumpProfile]
    simp
  exact ⟨h, fun msg hmsg => BuildResult.noConfusion (h.symm.trans hmsg)⟩

/-- C4 (amended): for every profile type other than `"GAP"` and `"BUMP"`,
the builder prints `"PROFILE TYPE NOT DEFINED"` and terminates the process
with exit code 0 (no structured error is raised), and `Alpha_Bump`
propagates that termination, so no alpha array is produced and no array is
mutated. -/
theorem bump_invalidKind_exit {N k : ℕ} (r Hp : Fin N → ℝ)
    (Location Amplitude Width : Fin k → ℝ) (alpha_0 : ℝ) (ty : String)
    (h1 : ty ≠ "GAP") (h2 : ty ≠ "BUMP") :
    get_BumpProfile r Hp ⟨Location, Amplitude, Width, ty⟩ =
      .exitProcess "PROFILE TYPE NOT DEFINED" 0
    ∧ Alpha_Bump alpha_0 r Hp ⟨Location, Amplitude, Width, ty⟩ =
      .exitProcess "PROFILE TYPE NOT DEFINED" 0 := by
  have h : get_BumpProfile r Hp ⟨Location, Amplitude, Width, ty⟩ =
      .exitProcess "PROFILE TYPE NOT DEFINED" 0 := by
    rw [get_BumpProfile]
    simp [h1, h2]
  refine ⟨h, ?_⟩
  unfold Alpha_Bump
  rw [h]

/-- C4 witness: `bump_invalidKind_exit` at the concrete type `"OTHER"`. -/
theorem bump_invalidKind_exit_w :
    ("OTHER" : String) ≠ "GAP" ∧ ("OTHER" : String) ≠ "BUMP" ∧
    (get_BumpProfile (fun _ : Fin 1 => 0) (fun _ => 1)
        ⟨fun _ : Fin 1 => 0, fun _ => 0, fun _ => 1, "OTHER"⟩ =
      .exitProcess "PROFILE TYPE NOT DEFINED" 0
    ∧ Alpha_Bump 1 (fun _ : Fin 1 => 0) (fun _ => 1)
        ⟨fun _ : Fin 1 => 0, fun _ => 0, fun _ => 1, "OTHER"⟩ =
      .exitProcess "PROFILE TYPE NOT DEFINED" 0) :=
  ⟨by decide, by decide,
    bump_invalidKind_exit (fun _ : Fin 1 => 0) (fun _ => 1)
      (fun _ : Fin 1 => 0) (fun _ => 0) (fun _ => 1) 1 "OTHER"
      (by decide) (by decide)⟩

/-- C9: in both updater lists the alpha step comes strictly after the
scale-height step `Hp` and the parameter-group step, and strictly before
every later, alpha-dependent step (`nu`, `rho`, `n`, `mfp`, `P`, `eta`, `S`). -/
theorem updater_order :
    (gas_updater_bumps.indexOf "Hp" < gas_updater_bumps.indexOf "GaussianBumps"
      ∧ gas_updater_bumps.indexOf "GaussianBumps" < gas_updater_bumps.indexOf "alpha"
      ∧ gas_updater_bumps.indexOf "Hp" < gas_updater_bumps.indexOf "alpha"
      ∧ ∀ s ∈ ["nu", "rho", "n", "mfp", "P", "eta", "S"],
          gas_updater_bumps.indexOf "alpha" < gas_updater_bumps.indexOf s)
    ∧ (gas_updater_deadzone.indexOf "Hp" < gas_updater_deadzone.indexOf "DeadZone"
      ∧ gas_updater_deadzone.indexOf "DeadZone" < gas_updater_deadzone.indexOf "alpha"
      ∧ gas_updater_deadzone.indexOf "Hp" < gas_updater_deadzone.indexOf "alpha"
      ∧ ∀ s ∈ ["nu", "rho", "n", "mfp", "P", "eta", "S"],
          gas_updater_deadzone.indexOf "alpha" < gas_updater_deadzone.indexOf s) := by
  decide

/-- The dead-zone shape function is continuous (both branch formulas are
continuous and they agree, with value 0.5, where the branches meet). -/
theorem deadZoneShape_continuous (r_out w : ℝ) :
    Continuous (deadZoneShape r_out w) := by
  unfold deadZoneShape
  apply Continuous.if
  · intro a ha
    have hset : {ρ : ℝ | ρ - r_out < 0} = Set.Iio r_out := by
      ext ρ; simp [sub_neg]
    rw [hset, frontier_Iio, Set.mem_singleton_iff] at ha
    subst ha
    simp
    norm_num
  · fun_prop
  · fun_prop

/-- For positive transition width the dead-zone shape lies strictly
between 0 and 1 at every radius. -/
theorem deadZoneShape_mem (r_out w ρ : ℝ) (hw : 0 < w) :
    0 < deadZoneShape r_out w ρ ∧ deadZoneShape r_out w ρ < 1 := by
  unfold deadZoneShape
  by_cases hx : ρ - r_out < 0
  · rw [if_pos hx]
    have hlt : Real.exp ((ρ - r_out) / w) < 1 := by
      rw [Real.exp_lt_one_iff]
      exact div_neg_of_neg_of_pos hx hw
    have hpos : 0 < Real.exp ((ρ - r_out) / w) := Real.exp_pos _
    constructor
    · nlinarith
    · nlinarith
  · rw [if_neg hx]
    push_neg at hx
    have hle : -(ρ - r_out) / w ≤ 0 := by
      rw [neg_div, neg_nonpos]
      exact div_nonneg (by linarith) hw.le
    have h1 : Real.exp (-(ρ - r_out) / w) ≤ 1 := Real.exp_le_one_iff.mpr hle
    have hpos : 0 < Real.exp (-(ρ - r_out) / w) := Real.exp_pos _
    constructor
    · nlinarith
    · nlinarith

/-- C2: for positive transition width, the dead-zone alpha is
`alpha_dead + (alpha_active - alpha_dead) * shape`, where the shape takes
the rising-exponential branch for `r - outer_radius < 0` and the
complementary branch for `r - outer_radius ≥ 0`; the shape function is
continuous at `outer_radius` and both branch formulas give exactly `0.5`
there. -/
theorem deadZone_formula (alpha_active alpha_dead r_out w : ℝ) (hw : 0 < w)
    {N : ℕ} (r : Fin N → ℝ) :
    (∀ j, r j - r_out < 0 →
      Alpha_DeadZone alpha_active alpha_dead r_out w r j =
        alpha_dead + (alpha_active - alpha_dead) *
          (0.5 * Real.exp ((r j - r_out) / w)))
    ∧ (∀ j, 0 ≤ r j - r_out →
      Alpha_DeadZone alpha_active alpha_dead r_out w r j =
        alpha_dead + (alpha_active - alpha_dead) *
          (1.0 - 0.5 * Real.exp (-(r j - r_out) / w)))
    ∧ ContinuousAt (deadZoneShape r_out w) r_out
    ∧ deadZoneShape r_out w r_out = 0.5
    ∧ 0.5 * Real.exp ((r_out - r_out) / w) = 0.5
    ∧ 1.0 - 0.5 * Real.exp (-(r_out - r_out) / w) = 0.5 := by
  refine ⟨fun j hj => ?_, fun j hj => ?_, ?_, ?_, ?_, ?_⟩
  · rw [Alpha_DeadZone, deadZoneShape, if_pos hj]
  · rw [Alpha_DeadZone, deadZoneShape, if_neg (not_lt.mpr hj)]
  · exact (deadZoneShape_continuous r_out w).continuousAt
  · rw [deadZoneShape, if_neg (by norm_num)]
    norm_num
  · norm_num
  · norm_num

/-- C2 witness: `deadZone_formula` at `alpha_active = 2`, `alpha_dead = 1`,
`outer_radius = 0`, `transition_width = 1`, on a one-point grid. -/
theorem deadZone_formula_w :
    (0 : ℝ) < 1 ∧
    ((∀ j : Fin 1, (fun _ : Fin 1 => (-1 : ℝ)) j - 0 < 0 →
      Alpha_DeadZone 2 1 0 1 (fun _ : Fin 1 => (-1 : ℝ)) j =
        1 + (2 - 1) * (0.5 * Real.exp (((fun _ : Fin 1 => (-1 : ℝ)) j - 0) / 1)))
    ∧ (∀ j : Fin 1, 0 ≤ (fun _ : Fin 1 => (-1 : ℝ)) j - 0 →
      Alpha_DeadZone 2 1 0 1 (fun _ : Fin 1 => (-1 : ℝ)) j =
        1 + (2 - 1) * (1.0 - 0.5 * Real.exp (-((fun _ : Fin 1 => (-1 : ℝ)) j - 0) / 1)))
    ∧ ContinuousAt (deadZoneShape 0 1) 0
    ∧ deadZoneShape 0 1 0 = 0.5
    ∧ 0.5 * Real.exp (((0 : ℝ) - 0) / 1) = 0.5
    ∧ 1.0 - 0.5 * Real.exp (-((0 : ℝ) - 0) / 1) = 0.5) :=
  ⟨by norm_num, deadZone_formula 2 1 0 1 (by norm_num) (fun _ : Fin 1 => (-1 : ℝ))⟩

/-- C10: with positive transition width and distinct plateau values, every
element of the dead-zone alpha profile lies strictly between `alpha_dead`
and `alpha_active`; when both plateaus are positive the profile is positive
everywhere. -/
theorem deadZone_strict_between (alpha_active alpha_dead r_out w : ℝ)
    (hw : 0 < w) (hne : alpha_active ≠ alpha_dead) {N : ℕ} (r : Fin N → ℝ)
    (j : Fin N) :
    min alpha_dead alpha_active < Alpha_DeadZone alpha_active alpha_dead r_out w r j
    ∧ Alpha_DeadZone alpha_active alpha_dead r_out w r j < max alpha_dead alpha_active
    ∧ (0 < alpha_dead → 0 < alpha_active →
        0 < Alpha_DeadZone alpha_active alpha_dead r_out w r j) := by
  obtain ⟨hs0, hs1⟩ := deadZoneShape_mem r_out w (r j) hw
  rw [Alpha_DeadZone]
  rcases lt_or_gt_of_ne hne with h | h
  · rw [min_eq_right h.le, max_eq_left h.le]
    refine ⟨by nlinarith, by nlinarith, fun h1 h2 => by nlinarith⟩
  · rw [min_eq_left h.le, max_eq_right h.le]
    refine ⟨by nlinarith, by nlinarith, fun h1 h2 => by nlinarith⟩

/-- C10 witness: `deadZone_strict_between` at `alpha_active = 2`,
`alpha_dead = 1`, `outer_radius = 0`, `transition_width = 1`, one-point
grid. -/
theorem deadZone_strict_between_w :
    (0 : ℝ) < 1 ∧ (2 : ℝ) ≠ 1 ∧
    (min (1 : ℝ) 2 < Alpha_DeadZone 2 1 0 1 (fun _ : Fin 1 => 0) 0
    ∧ Alpha_DeadZone 2 1 0 1 (fun _ : Fin 1 => 0) 0 < max (1 : ℝ) 2
    ∧ ((0 : ℝ) < 1 → (0 : ℝ) < 2 →
        0 < Alpha_DeadZone 2 1 0 1 (fun _ : Fin 1 => 0) 0)) :=
  ⟨by norm_num, by norm_num,
    deadZone_strict_between 2 1 0 1 (by norm_num) (by norm_num)
      (fun _ : Fin 1 => 0) 0⟩

/-- C6 counterexample: two coincident bumps, each of amplitude `-1` (so
every amplitude satisfies `amplitude ≥ -1`), with profile type `GAP`: the
returned factor array takes the value `-1 < 0` at the grid point under the
bumps, so the claimed non-negativity fails for multiple bumps. -/
theorem bumpFactor_neg_cex :
    (∀ i : Fin 2, (-1 : ℝ) ≤ (fun _ : Fin 2 => (-1 : ℝ)) i) ∧
    get_BumpProfile (fun _ : Fin 1 => 1) (fun _ => 1)
        ⟨fun _ : Fin 2 => 1, fun _ => -1, fun _ => 1, "GAP"⟩ =
      .ok (bumpFactor (fun _ : Fin 1 => 1) (fun _ => 1)
        ⟨fun _ : Fin 2 => 1, fun _ => -1, fun _ => 1, "GAP"⟩) ∧
    bumpFactor (fun _ : Fin 1 => 1) (fun _ => 1)
        ⟨fun _ : Fin 2 => 1, fun _ => -1, fun _ => 1, "GAP"⟩ 0 < 0 := by
  refine ⟨fun i => le_refl _, rfl, ?_⟩
  rw [bumpFactor_eq_sum]
  norm_num [Gaussian, Fin.sum_univ_two, Real.exp_zero]

/-- C6 (amended): when the negative parts of the amplitudes sum to at least
`-1` (in particular for a single bump of amplitude `≥ -1`), the factor array
returned by the builder with profile type `GAP` is non-negative at every
grid point. -/
theorem bumpFactor_nonneg {N k : ℕ} (r Hp : Fin N → ℝ) (b : GaussianBumps k)
    (F : Fin N → ℝ) (hty : b.profileType = "GAP")
    (hF : get_BumpProfile r Hp b = .ok F)
    (hA : -1 ≤ ∑ i, min (b.Amplitude i) 0) (j : Fin N) :
    0 ≤ F j := by
  have hFe : bumpFactor r Hp b = F := by
    rw [get_BumpProfile, hty] at hF
    simpa using hF
  rw [← hFe, bumpFactor_eq_sum]
  have key : ∀ i, min (b.Amplitude i) 0 ≤
      Gaussian (r j) (b.Location i) (b.Amplitude i)
        (b.Width i * Hp_interpolator r Hp (b.Location i) / FWHM_factor) := by
    intro i
    rw [Gaussian]
    have ht0 : 0 < Real.exp (-0.5 * ((r j - b.Location i) /
        (b.Width i * Hp_interpolator r Hp (b.Location i) / FWHM_factor)) ^ 2) :=
      Real.exp_pos _
    have ht1 : Real.exp (-0.5 * ((r j - b.Location i) /
        (b.Width i * Hp_interpolator r Hp (b.Location i) / FWHM_factor)) ^ 2) ≤ 1 := by
      rw [Real.exp_le_one_iff]
      nlinarith [sq_nonneg ((r j - b.Location i) /
        (b.Width i * Hp_interpolator r Hp (b.Location i) / FWHM_factor))]
    rcases le_or_lt 0 (b.Amplitude i) with hA' | hA'
    · exact le_trans (min_le_right _ _) (mul_nonneg hA' ht0.le)
    · exact le_trans (min_le_left _ _) (by nlinarith)
  have hsum : ∑ i, min (b.Amplitude i) 0 ≤
      ∑ i, Gaussian (r j) (b.Location i) (b.Amplitude i)
        (b.Width i * Hp_interpolator r Hp (b.Location i) / FWHM_factor) :=
    Finset.sum_le_sum fun i _ => key i
  linarith

/-- C6 witness: `bumpFactor_nonneg` for a single bump of amplitude `-1` on a
one-point grid. -/
theorem bumpFactor_nonneg_w :
    ((-1 : ℝ) ≤ ∑ i : Fin 1, min ((fun _ : Fin 1 => (-1 : ℝ)) i) 0) ∧
    0 ≤ bumpFactor (fun _ : Fin 1 => 1) (fun _ => 1)
        ⟨fun _ : Fin 1 => 1, fun _ => -1, fun _ => 1, "GAP"⟩ 0 :=
  ⟨by norm_num [le_min_iff],
    bumpFactor_nonneg (fun _ : Fin 1 => 1) (fun _ => 1)
      ⟨fun _ : Fin 1 => 1, fun _ => -1, fun _ => 1, "GAP"⟩
      (bumpFactor (fun _ : Fin 1 => 1) (fun _ => 1)
        ⟨fun _ : Fin 1 => 1, fun _ => -1, fun _ => 1, "GAP"⟩)
      rfl rfl (by norm_num [le_min_iff]) 0⟩

/-- C3: for positive surface density, alpha, cell areas and base alpha, the
rescaler called with `correct_mass = true` leaves the total integrated gas
mass `Σ area * Sigma` exactly equal to the mass recorded before the
rescale. -/
theorem rescale_mass_conserved {N m : ℕ} (area SigmaGas : Fin N → ℝ)
    (SigmaDust : Fin N → Fin m → ℝ) (alpha : Fin N → ℝ) (alpha_0 : ℝ)
    (harea : ∀ j, 0 < area j) (hSig : ∀ j, 0 < SigmaGas j)
    (halpha : ∀ j, 0 < alpha j) (ha0 : 0 < alpha_0) :
    get_DiskMass area
      (rescale_Sigma_with_Alpha area SigmaGas SigmaDust alpha alpha_0 true).1 =
    get_DiskMass area SigmaGas := by
  rcases Nat.eq_zero_or_pos N with hN | hN
  · subst hN
    simp [get_DiskMass]
  · haveI : Nonempty (Fin N) := Fin.pos_iff_nonempty.mp hN
    have hM0 : 0 < get_DiskMass area SigmaGas :=
      Finset.sum_pos (fun j _ => mul_pos (harea j) (hSig j)) Finset.univ_nonempty
    have hM1 : 0 < get_DiskMass area (fun j => SigmaGas j * (alpha_0 / alpha j)) :=
      Finset.sum_pos
        (fun j _ => mul_pos (harea j) (mul_pos (hSig j) (div_pos ha0 (halpha j))))
        Finset.univ_nonempty
    show (∑ j, area j * (SigmaGas j * (alpha_0 / alpha j) /
        (get_DiskMass area (fun j' => SigmaGas j' * (alpha_0 / alpha j')) /
          get_DiskMass area SigmaGas))) = get_DiskMass area SigmaGas
    have key : (∑ j, area j * (SigmaGas j * (alpha_0 / alpha j) /
        (get_DiskMass area (fun j' => SigmaGas j' * (alpha_0 / alpha j')) /
          get_DiskMass area SigmaGas))) =
        (∑ j, area j * (SigmaGas j * (alpha_0 / alpha j))) /
        (get_DiskMass area (fun j' => SigmaGas j' * (alpha_0 / alpha j')) /
          get_DiskMass area SigmaGas) := by
      rw [Finset.sum_div]
      exact Finset.sum_congr rfl fun j _ => (mul_div_assoc _ _ _).symm
    rw [key]
    have hM1e : (∑ j, area j * (SigmaGas j * (alpha_0 / alpha j))) =
        get_DiskMass area (fun j' => SigmaGas j' * (alpha_0 / alpha j')) := rfl
    rw [hM1e, div_div_eq_mul_div, mul_div_cancel_left₀ _ (ne_of_gt hM1)]

/-- C3 witness: `rescale_mass_conserved` on a one-cell grid with unit area,
density and alpha. -/
theorem rescale_mass_conserved_w :
    ((0 : ℝ) < 1) ∧
    get_DiskMass (fun _ : Fin 1 => 1)
      (rescale_Sigma_with_Alpha (fun _ : Fin 1 => 1) (fun _ => 1)
        (fun _ _ : Fin 1 => 1) (fun _ => 1) 1 true).1 =
    get_DiskMass (fun _ : Fin 1 => 1) (fun _ => 1) :=
  ⟨by norm_num,
    rescale_mass_conserved (fun _ : Fin 1 => 1) (fun _ => 1)
      (fun _ _ : Fin 1 => 1) (fun _ => 1) 1
      (fun _ => one_pos) (fun _ => one_pos) (fun _ => one_pos) one_pos⟩

/-- C7: `setup_profile_deadzone` performs no validation: called with
`transition_width = 0` it neither raises a structured error nor terminates
the process, and the dead-zone profile is evaluated anyway with the zero
width. -/
theorem setup_deadzone_no_guard :
    setup_profile_deadzone (1 / 1000) (1 / 10000) 10 0 (fun _ : Fin 1 => 1) =
      .ok (Alpha_DeadZone (1 / 1000) (1 / 10000) 10 0 (fun _ : Fin 1 => 1))
    ∧ (∀ msg, setup_profile_deadzone (1 / 1000) (1 / 10000) 10 0
        (fun _ : Fin 1 => 1) ≠ BuildResult.error msg)
    ∧ (∀ msg c, setup_profile_deadzone (1 / 1000) (1 / 10000) 10 0
        (fun _ : Fin 1 => 1) ≠ BuildResult.exitProcess msg c) := by
  refine ⟨rfl, ?_, ?_⟩
  · intro msg h
    exact BuildResult.noConfusion h
  · intro msg c h
    exact BuildResult.noConfusion h

end AlphaProfiles
